import Mathlib

/-!
Shallow embedding of `src/swapRouter.ts` (the SwapRouter02 call-parameter
compiler) together with the entity types it consumes.

The source file is the authority for all control flow: trade normalization
(`encodeSwaps`, lines 134-264), the V2 leg encoder (`encodeV2Swap`, lines
96-132), the two public entry points (`swapCallParameters`, lines 271-321 and
`swapAndAddCallParameters`, lines 328-419) and the partial-fill risk assessor
(`riskOfPartialFill` / `v3TradeWithHighPriceImpact`, lines 422-440).

External collaborators (the `@uniswap/*` SDK value types, the ABI encoder, the
address validator) and repository files not present under `src/` (the entity
definitions, the payment/permit encoders, the sentinel address constants) are
modelled as data: calldata is represented symbolically as one constructor per
encoded router function, carrying the arguments in the order the source passes
them, and big integers are `Int`.
-/

/-- Trade type: whether the exact input or the exact output amount is fixed.
Mirrors `TradeType` from the external core SDK. -/
inductive TradeType where
  | EXACT_INPUT
  | EXACT_OUTPUT
deriving DecidableEq, Repr, Inhabited

/-- Modelled from the spec: the route protocol tag enumeration
(`entities/protocol`, not under `src/`); spec §3 lists exactly the tags
`V2`, `V3`, `MIXED`. -/
inductive Protocol where
  | V2
  | V3
  | MIXED
deriving DecidableEq, Repr, Inhabited

/-- Which concrete trade class an individual (single-protocol) trade is an
instance of; this is what the source's `instanceof V2Trade` /
`instanceof V3Trade` / `instanceof MixedRouteTrade` checks dispatch on. -/
inductive TradeKind where
  | v2
  | v3
  | mixed
deriving DecidableEq, Repr, Inhabited

/-- A currency: the native chain asset or a token, identified by address.
Mirrors the external core SDK `Currency`. -/
structure Currency where
  isNative : Bool
  addr : Nat
deriving DecidableEq, Repr, Inhabited

/-- `currency.isToken` from the core SDK: a currency is a token iff it is not
the native asset. -/
def Currency.isToken (c : Currency) : Bool := !c.isNative

/-- `currency.equals` from the core SDK: same nativeness and same address. -/
def Currency.equals (a b : Currency) : Bool :=
  a.isNative == b.isNative && a.addr == b.addr

/-- `currency.wrapped` from the core SDK: a token is its own wrapped form; the
native asset maps to its wrapped token (we carry the wrapped token address in
the `addr` field of the native currency). -/
def Currency.wrapped (c : Currency) : Currency :=
  { isNative := false, addr := c.addr }

/-- A rational tolerance / impact value (numerator, denominator), mirroring the
external SDK `Percent`. Denominators are positive in every value the program
builds. -/
structure Percent where
  num : Nat
  den : Nat
deriving DecidableEq, Repr, Inhabited

/-- `Fraction.greaterThan` of the external SDK, on non-negative fractions:
cross multiplication. -/
def Percent.greaterThan (a b : Percent) : Bool :=
  decide (a.num * b.den > b.num * a.den)

/-- A (currency, raw integer amount) pair; `quotient` is the raw amount,
mirroring `CurrencyAmount.quotient` of the external SDK. -/
structure CurrencyAmount where
  currency : Currency
  quotient : Int
deriving DecidableEq, Repr, Inhabited

/-- `CurrencyAmount.fromRawAmount` of the external SDK. -/
def CurrencyAmount.fromRawAmount (c : Currency) (q : Int) : CurrencyAmount :=
  ⟨c, q⟩

/-- `CurrencyAmount.add` of the external SDK. The SDK requires both operands to
share a currency (which holds at every call site, after the homogeneity
invariants) and returns the sum in that currency. -/
def CurrencyAmount.add (a b : CurrencyAmount) : CurrencyAmount :=
  ⟨a.currency, a.quotient + b.quotient⟩

/-- `CurrencyAmount.subtract` of the external SDK; the difference may be
negative. -/
def CurrencyAmount.subtract (a b : CurrencyAmount) : CurrencyAmount :=
  ⟨a.currency, a.quotient - b.quotient⟩

/-- `CurrencyAmount.wrapped` of the external SDK: same raw amount, wrapped
currency. -/
def CurrencyAmount.wrapped (a : CurrencyAmount) : CurrencyAmount :=
  ⟨a.currency.wrapped, a.quotient⟩

/-- Fee options: a fee fraction and a fee recipient (`FeeOptions` of the
external SDK). Only its presence and its payload-as-data matter here. -/
structure FeeOptions where
  fee : Percent
  recipient : Nat
deriving DecidableEq, Repr, Inhabited

/-- An off-chain-signed permit payload, opaque to this compiler. -/
structure PermitOptions where
  raw : Nat
deriving DecidableEq, Repr, Inhabited

/-- Modelled from the spec: the approval-type enumeration of
`approveAndCall.ts` (not under `src/`); §6 only distinguishes `NOT_REQUIRED`
from the other variants. -/
inductive ApprovalType where
  | NOT_REQUIRED
  | MAX
  | MAX_MINUS_ONE
  | ZERO_THEN_MAX
  | ZERO_THEN_MAX_MINUS_ONE
deriving DecidableEq, Repr, Inhabited

/-- A route: ordered token-address path, protocol tag, chain id, endpoint
currencies, and the external pair arithmetic used by the V2 trade constructor
to derive the floating side of a trade (`amountOut` for exact input,
`amountIn` for exact output), plus the externally computed price impact. -/
structure Route where
  path : List Nat
  protocol : Protocol
  chainId : Nat
  input : Currency
  output : Currency
  amountOut : Int → Int
  amountIn : Int → Int
  priceImpact : Percent
deriving Inhabited

/-- One single-protocol trade object, as the source's union
`V2Trade | V3Trade | MixedRouteTrade`: `kind` records which class it is an
instance of, `swapsLength` the number of internal swaps (read by
`encodeSwaps` only for `v3`/`mixed` instances). -/
structure IndivTrade where
  kind : TradeKind
  route : Route
  inputAmount : CurrencyAmount
  outputAmount : CurrencyAmount
  tradeType : TradeType
  priceImpact : Percent
  swapsLength : Nat
deriving Inhabited

/-- `trade.maximumAmountIn(slippageTolerance).quotient` of the external trade
SDK, modelled per spec §4.2: the input amount itself for exact-input trades,
the slippage-inflated input for exact-output trades. -/
def IndivTrade.maximumAmountIn (t : IndivTrade) (slippageTolerance : Percent) : CurrencyAmount :=
  if t.tradeType == TradeType.EXACT_INPUT then t.inputAmount
  else ⟨t.inputAmount.currency,
        t.inputAmount.quotient * ((slippageTolerance.den : Int) + slippageTolerance.num) / (slippageTolerance.den : Int)⟩

/-- `trade.minimumAmountOut(slippageTolerance).quotient` of the external trade
SDK, modelled per spec §4.2: the output amount itself for exact-output trades,
the slippage-deflated output for exact-input trades. -/
def IndivTrade.minimumAmountOut (t : IndivTrade) (slippageTolerance : Percent) : CurrencyAmount :=
  if t.tradeType == TradeType.EXACT_OUTPUT then t.outputAmount
  else ⟨t.outputAmount.currency,
        t.outputAmount.quotient * (slippageTolerance.den : Int) / ((slippageTolerance.den : Int) + slippageTolerance.num)⟩

/-- One internal leg of an aggregate trade: route plus both amounts
(spec §3, `Swap`). -/
structure Swap where
  route : Route
  inputAmount : CurrencyAmount
  outputAmount : CurrencyAmount
deriving Inhabited

/-- Modelled from the spec: the aggregate `Trade` entity
(`entities/trade.ts`, not under `src/`): an ordered list of heterogeneous
legs sharing one trade type (spec §3), with an externally computed aggregate
price impact attribute (spec glossary) read by the risk assessor. -/
structure AggTrade where
  swaps : List Swap
  tradeType : TradeType
  priceImpact : Percent
deriving Inhabited

/-- The source's `AnyTradeType` union: an aggregate trade, a single trade, or
a list of single-protocol trades. -/
inductive Trades where
  | agg : AggTrade → Trades
  | single : IndivTrade → Trades
  | list : List IndivTrade → Trades
deriving Inhabited

/-- The named failure conditions the compiler can surface (the source throws
via `invariant(_, msg)`); `EMPTY_TRADES` stands for the runtime type error an
empty trade list produces when `trades[0]` is dereferenced. -/
inductive RouterError where
  | UNSUPPORTED_PROTOCOL
  | TOKEN_IN_DIFF
  | TOKEN_OUT_DIFF
  | TRADE_TYPE_DIFF
  | NON_TOKEN_PERMIT
  | NON_TOKEN_PERMIT_OUTPUT
  | EMPTY_TRADES
deriving DecidableEq, Repr, Inhabited

/-- A liquidity pool, as consumed here: its two tokens. -/
structure Pool where
  token0 : Currency
  token1 : Currency
deriving DecidableEq, Repr, Inhabited

/-- A liquidity-deposit target (external SDK `Position`), as consumed here:
pool, tick range, mint amounts (`position.mintAmounts`), and the position's
current token amounts (`position.amount0/.amount1`). -/
structure Position where
  pool : Pool
  tickLower : Int
  tickUpper : Int
  mintAmount0 : Int
  mintAmount1 : Int
  amount0 : Int
  amount1 : Int
deriving DecidableEq, Repr, Inhabited

/-- The argument record handed to `Position.fromAmounts` when the source
builds the slippage-worst-case "minimal position". -/
structure MinimalPositionArgs where
  pool : Pool
  tickLower : Int
  tickUpper : Int
  amount0 : Int
  amount1 : Int
  useFullPrecision : Bool
deriving DecidableEq, Repr, Inhabited

/-- Symbolic calldata: one constructor per encoded router function, carrying
the arguments in the order the source passes them to the ABI encoder. -/
inductive Calldata where
  | swapExactETHForTokens (amountOutMin : Int) (path : List Nat) (recipient : Nat) (deadline : Option Nat)
  | swapExactTokensForETH (amountIn : Int) (amountOutMin : Int) (path : List Nat) (recipient : Nat) (deadline : Option Nat)
  | swapExactTokensForTokens (amountIn : Int) (amountOutMin : Int) (path : List Nat) (recipient : Nat) (deadline : Option Nat)
  | swapETHForExactTokens (amountOut : Int) (amountInMax : Int) (path : List Nat) (recipient : Nat) (deadline : Option Nat)
  | swapTokensForExactETH (amountOut : Int) (amountInMax : Int) (path : List Nat) (recipient : Nat) (deadline : Option Nat)
  | swapTokensForExactTokens (amountOut : Int) (amountInMax : Int) (path : List Nat) (recipient : Nat) (deadline : Option Nat)
  | selfPermit (token : Currency) (permit : PermitOptions)
  | unwrapWETH9 (amountMinimum : Int) (recipient : Option Nat) (feeOptions : Option FeeOptions)
  | sweepToken (token : Currency) (amountMinimum : Int) (recipient : Option Nat) (feeOptions : Option FeeOptions)
  | refundETH
  | wrapETH (amount : Int)
  | pull (token : Currency) (amount : Int)
  | approve (token : Currency) (approvalType : ApprovalType)
  | addLiquidity (position : Position) (minimalPosition : MinimalPositionArgs) (addLiquidityOptions : Nat) (slippageTolerance : Percent)
deriving DecidableEq, Repr, Inhabited

/-- `SwapOptions` (source lines 32-57). -/
structure SwapOptions where
  slippageTolerance : Percent
  recipient : Option Nat
  deadlineOrPreviousBlockhash : Option Nat
  inputTokenPermit : Option PermitOptions
  fee : Option FeeOptions
deriving Inhabited

/-- `SwapAndAddOptions` (source lines 59-64): swap options plus an optional
output-token permit. -/
structure SwapAndAddOptions where
  swapOptions : SwapOptions
  outputTokenPermit : Option PermitOptions
deriving Inhabited

/-- `MethodParameters`: the compile output artifact. `calldata` is the single
call the entry points return (`calldatas[0]`, which is absent when the
assembled list is empty), `value` the native value to attach. -/
structure MethodParameters where
  calldata : Option Calldata
  value : Int
deriving DecidableEq, Repr, Inhabited

/-- Modelled from the spec: the sentinel recipient meaning "transaction
sender" (`MSG_SENDER` of `constants.ts`, not under `src/`). -/
def MSG_SENDER : Nat := 1

/-- Modelled from the spec: the router's own address sentinel (`ADDRESS_THIS`
of `constants.ts`, not under `src/`). -/
def ADDRESS_THIS : Nat := 2

/-- The external address validator, identity on well-formed addresses (our
address type only holds well-formed addresses). -/
def validateAndParseAddress (a : Nat) : Nat := a

/-- Modelled from the spec: the static chain-id to wrapped-native-asset lookup
(`WETH9` of the external core SDK); an injective table suffices. -/
def WETH9 (chainId : Nat) : Currency :=
  { isNative := false, addr := 1000000 + chainId }

/-- `REFUND_ETH_PRICE_IMPACT_THRESHOLD` (source line 27): 50/100. -/
def REFUND_ETH_PRICE_IMPACT_THRESHOLD : Percent := ⟨50, 100⟩

/-- The recipient computation of `encodeV2Swap` (source lines 106-110): the
router itself under custody, else the explicit validated recipient, else the
sender sentinel. -/
def swapRecipient (options : SwapOptions) (routerMustCustody : Bool) : Nat :=
  if routerMustCustody then ADDRESS_THIS
  else match options.recipient with
    | none => MSG_SENDER
    | some r => validateAndParseAddress r

/-- `SwapRouter.encodeV2Swap` (source lines 96-132): selects the router
function variant from the trade type and the nativeness of the two end
currencies, zeroing the minimum-output argument when the aggregated slippage
check is in effect. -/
def encodeV2Swap (trade : IndivTrade) (options : SwapOptions)
    (routerMustCustody : Bool) (performAggregatedSlippageCheck : Bool) : Calldata :=
  let amountIn := (trade.maximumAmountIn options.slippageTolerance).quotient
  let amountOut := (trade.minimumAmountOut options.slippageTolerance).quotient
  let path := trade.route.path
  let recipient := swapRecipient options routerMustCustody
  if trade.tradeType == TradeType.EXACT_INPUT then
    if trade.inputAmount.currency.isNative then
      Calldata.swapExactETHForTokens (if performAggregatedSlippageCheck then 0 else amountOut)
        path recipient options.deadlineOrPreviousBlockhash
    else if trade.outputAmount.currency.isNative then
      Calldata.swapExactTokensForETH amountIn (if performAggregatedSlippageCheck then 0 else amountOut)
        path recipient options.deadlineOrPreviousBlockhash
    else
      Calldata.swapExactTokensForTokens amountIn (if performAggregatedSlippageCheck then 0 else amountOut)
        path recipient options.deadlineOrPreviousBlockhash
  else
    if trade.inputAmount.currency.isNative then
      Calldata.swapETHForExactTokens amountOut amountIn path recipient options.deadlineOrPreviousBlockhash
    else if trade.outputAmount.currency.isNative then
      Calldata.swapTokensForExactETH amountOut amountIn path recipient options.deadlineOrPreviousBlockhash
    else
      Calldata.swapTokensForExactTokens amountOut amountIn path recipient options.deadlineOrPreviousBlockhash

/-- The protocol test of the `UNSUPPORTED_PROTOCOL` invariant
(source lines 153-161). -/
def supportedProtocol (p : Protocol) : Bool :=
  p == Protocol.V3 || p == Protocol.V2 || p == Protocol.MIXED

/-- The external `V2Trade` constructor as invoked during unbundling
(source lines 170-176): it stores the given amount on the fixed side and
derives the floating side from the route's pair arithmetic. -/
def mkV2Trade (route : Route) (amount : CurrencyAmount) (tradeType : TradeType) : IndivTrade :=
  if tradeType == TradeType.EXACT_INPUT then
    { kind := TradeKind.v2, route := route, inputAmount := amount,
      outputAmount := ⟨route.output, route.amountOut amount.quotient⟩,
      tradeType := tradeType, priceImpact := route.priceImpact, swapsLength := 1 }
  else
    { kind := TradeKind.v2, route := route,
      inputAmount := ⟨route.input, route.amountIn amount.quotient⟩, outputAmount := amount,
      tradeType := tradeType, priceImpact := route.priceImpact, swapsLength := 1 }

/-- The unbundling loop of `encodeSwaps` (source lines 163-178): every leg of
an aggregate trade becomes an independent V2 trade instance built from the
leg's route and its input amount (exact input) or output amount
(exact output), inheriting the aggregate's trade type. -/
def unbundle (agg : AggTrade) : List IndivTrade :=
  agg.swaps.map fun s =>
    mkV2Trade s.route
      (if agg.tradeType == TradeType.EXACT_INPUT then s.inputAmount else s.outputAmount)
      agg.tradeType

/-- The input-shape normalization of `encodeSwaps` (source lines 151-183):
aggregate trades are protocol-checked and unbundled, a lone trade is wrapped
into a one-element list, a list passes through. -/
def normalizeTrades : Trades → Except RouterError (List IndivTrade)
  | Trades.agg a =>
      if a.swaps.all (fun s => supportedProtocol s.route.protocol) then Except.ok (unbundle a)
      else Except.error RouterError.UNSUPPORTED_PROTOCOL
  | Trades.single t => Except.ok [t]
  | Trades.list ts => Except.ok ts

/-- `numberOfTrades` (source lines 185-189): each V3/mixed trade instance
contributes its internal swap count, every other trade counts as one. -/
def numberOfTrades (ts : List IndivTrade) : Nat :=
  ts.foldl
    (fun n t => n + (if t.kind == TradeKind.v3 || t.kind == TradeKind.mixed then t.swapsLength else 1))
    0

/-- The `TOKEN_IN_DIFF` invariant condition (source lines 194-197). -/
def tokenInCheck (ts : List IndivTrade) (sample : IndivTrade) : Bool :=
  ts.all fun t => t.inputAmount.currency.equals sample.inputAmount.currency

/-- The `TOKEN_OUT_DIFF` invariant condition (source lines 198-201). -/
def tokenOutCheck (ts : List IndivTrade) (sample : IndivTrade) : Bool :=
  ts.all fun t => t.outputAmount.currency.equals sample.outputAmount.currency

/-- The `TRADE_TYPE_DIFF` invariant condition (source lines 202-205). -/
def tradeTypeCheck (ts : List IndivTrade) (sample : IndivTrade) : Bool :=
  ts.all fun t => t.tradeType == sample.tradeType

/-- The `NON_TOKEN_PERMIT` invariant condition (source line 226): an input
permit, when supplied, must target a non-native currency. -/
def permitOkCheck (sample : IndivTrade) (options : SwapOptions) : Bool :=
  match options.inputTokenPermit with
  | none => true
  | some _ => sample.inputAmount.currency.isToken

/-- The input-permit call (source lines 225-228), empty when no permit is
supplied. -/
def permitCalldata (sample : IndivTrade) (options : SwapOptions) : List Calldata :=
  match options.inputTokenPermit with
  | none => []
  | some p => [Calldata.selfPermit sample.inputAmount.currency p]

/-- `performAggregatedSlippageCheck` (source line 216): exact input with
more than two counted legs. -/
def performAggregatedSlippageCheckOf (sample : IndivTrade) (ts : List IndivTrade) : Bool :=
  sample.tradeType == TradeType.EXACT_INPUT && decide (2 < numberOfTrades ts)

/-- `routerMustCustody` (source line 222): native output, or a fee, or a
swap-and-add compile, or the aggregated slippage check. -/
def routerMustCustodyOf (sample : IndivTrade) (ts : List IndivTrade)
    (options : SwapOptions) (isSwapAndAdd : Bool) : Bool :=
  sample.outputAmount.currency.isNative || options.fee.isSome || isSwapAndAdd
    || performAggregatedSlippageCheckOf sample ts

/-- The record `encodeSwaps` returns (source lines 138-149, 254-263). -/
structure EncodeSwapsResult where
  calldatas : List Calldata
  sampleTrade : IndivTrade
  routerMustCustody : Bool
  inputIsNative : Bool
  outputIsNative : Bool
  totalAmountIn : CurrencyAmount
  minimumAmountOut : CurrencyAmount
  quoteAmountOut : CurrencyAmount
deriving Inhabited

/-- The successful-path payload of `encodeSwaps` (source lines 207-263): the
permit call followed by one encoded call per V2 trade instance in input order
(the encoding loop, lines 230-234, skips non-V2 instances), plus the three
fold-computed aggregate figures. -/
def mkEncodeResult (sample : IndivTrade) (rest : List IndivTrade)
    (options : SwapOptions) (isSwapAndAdd : Bool) : EncodeSwapsResult :=
  let ts := sample :: rest
  let routerMustCustody := routerMustCustodyOf sample ts options isSwapAndAdd
  let pasc := performAggregatedSlippageCheckOf sample ts
  let swapCalls := ts.filterMap fun t =>
    if t.kind == TradeKind.v2 then some (encodeV2Swap t options routerMustCustody pasc) else none
  let zeroIn := CurrencyAmount.fromRawAmount sample.inputAmount.currency 0
  let zeroOut := CurrencyAmount.fromRawAmount sample.outputAmount.currency 0
  { calldatas := permitCalldata sample options ++ swapCalls
    sampleTrade := sample
    routerMustCustody := routerMustCustody
    inputIsNative := sample.inputAmount.currency.isNative
    outputIsNative := sample.outputAmount.currency.isNative
    totalAmountIn := ts.foldl (fun acc t => acc.add (t.maximumAmountIn options.slippageTolerance)) zeroIn
    minimumAmountOut := ts.foldl (fun acc t => acc.add (t.minimumAmountOut options.slippageTolerance)) zeroOut
    quoteAmountOut := ts.foldl (fun acc t => acc.add t.outputAmount) zeroOut }

/-- The validation-and-assembly core of `encodeSwaps` over an already
normalized list: the homogeneity invariants in source order (lines 194-205),
then the permit invariant (line 226), then the assembled result. -/
def encodeSwapsCore (ts : List IndivTrade) (options : SwapOptions)
    (isSwapAndAdd : Bool) : Except RouterError EncodeSwapsResult :=
  match ts with
  | [] => Except.error RouterError.EMPTY_TRADES
  | sample :: rest =>
    if tokenInCheck (sample :: rest) sample then
      if tokenOutCheck (sample :: rest) sample then
        if tradeTypeCheck (sample :: rest) sample then
          if permitOkCheck sample options then
            Except.ok (mkEncodeResult sample rest options isSwapAndAdd)
          else Except.error RouterError.NON_TOKEN_PERMIT
        else Except.error RouterError.TRADE_TYPE_DIFF
      else Except.error RouterError.TOKEN_OUT_DIFF
    else Except.error RouterError.TOKEN_IN_DIFF

/-- `SwapRouter.encodeSwaps` (source lines 134-264): normalize, validate,
assemble. -/
def encodeSwaps (trades : Trades) (options : SwapOptions)
    (isSwapAndAdd : Bool) : Except RouterError EncodeSwapsResult :=
  match normalizeTrades trades with
  | Except.error e => Except.error e
  | Except.ok ts => encodeSwapsCore ts options isSwapAndAdd

/-- `SwapRouter.v3TradeWithHighPriceImpact` (source lines 432-440) applied to
a single-protocol trade instance: not a V2 trade instance, and price impact
above the fixed threshold. -/
def v3TradeWithHighPriceImpactIndiv (trade : IndivTrade) : Bool :=
  !(trade.kind == TradeKind.v2) && trade.priceImpact.greaterThan REFUND_ETH_PRICE_IMPACT_THRESHOLD

/-- `SwapRouter.v3TradeWithHighPriceImpact` applied to an aggregate trade
object: the aggregate is never a V2 trade instance, so only its own price
impact is compared against the threshold. -/
def v3TradeWithHighPriceImpactAgg (trade : AggTrade) : Bool :=
  trade.priceImpact.greaterThan REFUND_ETH_PRICE_IMPACT_THRESHOLD

/-- `SwapRouter.riskOfPartialFill` (source lines 422-430): some element of a
list input, or the lone (possibly aggregate) input itself, has high price
impact. It inspects the original entry-point argument, not the normalized
legs. -/
def riskOfPartialFill : Trades → Bool
  | Trades.list ts => ts.any v3TradeWithHighPriceImpactIndiv
  | Trades.single t => v3TradeWithHighPriceImpactIndiv t
  | Trades.agg a => v3TradeWithHighPriceImpactAgg a

/-- The custody settlement step of `swapCallParameters` (source lines
295-308): unwrap to the recipient when the output is native, sweep the
wrapped output token otherwise. -/
def custodySeg (r : EncodeSwapsResult) (options : SwapOptions) : List Calldata :=
  if r.routerMustCustody then
    [if r.outputIsNative then
       Calldata.unwrapWETH9 r.minimumAmountOut.quotient options.recipient options.fee
     else
       Calldata.sweepToken r.sampleTrade.outputAmount.currency.wrapped r.minimumAmountOut.quotient
         options.recipient options.fee]
  else []

/-- The native-input refund step of `swapCallParameters` (source lines
310-314). -/
def refundSeg (trades : Trades) (r : EncodeSwapsResult) : List Calldata :=
  if r.inputIsNative && (r.sampleTrade.tradeType == TradeType.EXACT_OUTPUT || riskOfPartialFill trades)
  then [Calldata.refundETH]
  else []

/-- The full calldata list and transaction value assembled by
`swapCallParameters` (source lines 284-320), before the first entry is
projected out. -/
def swapAssemble (trades : Trades) (options : SwapOptions) :
    Except RouterError (List Calldata × Int) :=
  match encodeSwaps trades options false with
  | Except.error e => Except.error e
  | Except.ok r =>
    Except.ok (r.calldatas ++ custodySeg r options ++ refundSeg trades r,
               if r.inputIsNative then r.totalAmountIn.quotient else 0)

/-- `SwapRouter.swapCallParameters` (source lines 271-321): the returned
calldata is `calldatas[0]` of the assembled list (absent when the list is
empty), the value is `totalAmountIn` for native input and zero otherwise. -/
def swapCallParameters (trades : Trades) (options : SwapOptions) :
    Except RouterError MethodParameters :=
  match swapAssemble trades options with
  | Except.error e => Except.error e
  | Except.ok (calldatas, v) => Except.ok { calldata := calldatas.head?, value := v }

/-- `SwapRouter.getPositionAmounts` (source lines 442-457). -/
structure PositionAmounts where
  positionAmountIn : CurrencyAmount
  positionAmountOut : CurrencyAmount
deriving DecidableEq, Repr, Inhabited

/-- `SwapRouter.getPositionAmounts` (source lines 442-457): the mint amounts
of the position, oriented by the swap direction. -/
def getPositionAmounts (position : Position) (zeroForOne : Bool) : PositionAmounts :=
  let currencyAmount0 := CurrencyAmount.fromRawAmount position.pool.token0 position.mintAmount0
  let currencyAmount1 := CurrencyAmount.fromRawAmount position.pool.token1 position.mintAmount1
  if zeroForOne then ⟨currencyAmount0, currencyAmount1⟩ else ⟨currencyAmount1, currencyAmount0⟩

/-- `zeroForOne` (source line 353): the position's first pool token equals
the wrapped form of the swap's input currency, compared by address. -/
def zeroForOneOf (position : Position) (r : EncodeSwapsResult) : Bool :=
  position.pool.token0.wrapped.addr == r.totalAmountIn.currency.wrapped.addr

/-- `tokenIn` of the swap-and-add flow (source line 357). -/
def tokenInOf (r : EncodeSwapsResult) (position : Position) : Currency :=
  if r.inputIsNative then WETH9 r.sampleTrade.route.chainId
  else (getPositionAmounts position (zeroForOneOf position r)).positionAmountIn.currency.wrapped

/-- `tokenOut` of the swap-and-add flow (source line 358). -/
def tokenOutOf (r : EncodeSwapsResult) (position : Position) : Currency :=
  if r.outputIsNative then WETH9 r.sampleTrade.route.chainId
  else (getPositionAmounts position (zeroForOneOf position r)).positionAmountOut.currency.wrapped

/-- `amountOutRemaining` (source line 361): the desired position output
amount minus the swap's nominal output amount in wrapped terms; may be
negative. -/
def amountOutRemainingOf (r : EncodeSwapsResult) (position : Position) : CurrencyAmount :=
  (getPositionAmounts position (zeroForOneOf position r)).positionAmountOut.subtract r.quoteAmountOut.wrapped

/-- The output-side shortfall step (source lines 360-368): emitted only when
the remaining amount is strictly positive; wrap native value when the output
is native, pull the ERC20 otherwise. -/
def outputShortfallSeg (r : EncodeSwapsResult) (position : Position) : List Calldata :=
  let rem := amountOutRemainingOf r position
  if 0 < rem.quotient then
    [if r.outputIsNative then Calldata.wrapETH rem.quotient
     else Calldata.pull (tokenOutOf r position) rem.quotient]
  else []

/-- The output-token permit step of the swap-and-add flow (source lines
347-350): a supplied permit must target a non-native currency. -/
def outputPermitSeg (r : EncodeSwapsResult) (options : SwapAndAddOptions) :
    Except RouterError (List Calldata) :=
  match options.outputTokenPermit with
  | none => Except.ok []
  | some p =>
    if r.quoteAmountOut.currency.isToken then
      Except.ok [Calldata.selfPermit r.quoteAmountOut.currency p]
    else Except.error RouterError.NON_TOKEN_PERMIT_OUTPUT

/-- The `Position.fromAmounts` argument record for the minimal position
(source lines 383-390): the swap-fed side uses the aggregate minimum output,
the other side keeps the caller's desired amount. -/
def minimalPositionOf (position : Position) (r : EncodeSwapsResult) (zeroForOne : Bool) :
    MinimalPositionArgs :=
  { pool := position.pool, tickLower := position.tickLower, tickUpper := position.tickUpper,
    amount0 := if zeroForOne then position.amount0 else r.minimumAmountOut.quotient,
    amount1 := if zeroForOne then r.minimumAmountOut.quotient else position.amount1,
    useFullPrecision := false }

/-- The calls the swap-and-add flow appends after the output-side shortfall
step (source lines 370-403): input pull/wrap, approvals, the add-liquidity
call, and the two zero-amount sweeps. -/
def swapAndAddSuffix (r : EncodeSwapsResult) (options : SwapAndAddOptions) (position : Position)
    (addLiquidityOptions : Nat) (tokenInApprovalType tokenOutApprovalType : ApprovalType) :
    List Calldata :=
  let zeroForOne := zeroForOneOf position r
  let pa := getPositionAmounts position zeroForOne
  let tokenIn := tokenInOf r position
  let tokenOut := tokenOutOf r position
  (if r.inputIsNative then [Calldata.wrapETH pa.positionAmountIn.quotient]
   else [Calldata.pull tokenIn pa.positionAmountIn.quotient])
  ++ (if tokenInApprovalType == ApprovalType.NOT_REQUIRED then []
      else [Calldata.approve tokenIn tokenInApprovalType])
  ++ (if tokenOutApprovalType == ApprovalType.NOT_REQUIRED then []
      else [Calldata.approve tokenOut tokenOutApprovalType])
  ++ [Calldata.addLiquidity position (minimalPositionOf position r zeroForOne)
        addLiquidityOptions options.swapOptions.slippageTolerance]
  ++ (if r.inputIsNative then [Calldata.unwrapWETH9 0 none none]
      else [Calldata.sweepToken tokenIn 0 none none])
  ++ (if r.outputIsNative then [Calldata.unwrapWETH9 0 none none]
      else [Calldata.sweepToken tokenOut 0 none none])

/-- The transaction value of the swap-and-add flow (source lines 405-412). -/
def swapAndAddValue (r : EncodeSwapsResult) (position : Position) : Int :=
  if r.inputIsNative then
    r.totalAmountIn.quotient + (getPositionAmounts position (zeroForOneOf position r)).positionAmountIn.quotient
  else if r.outputIsNative then (amountOutRemainingOf r position).quotient
  else 0

/-- The full calldata list and transaction value assembled by
`swapAndAddCallParameters` (source lines 336-418), before the first entry is
projected out. -/
def swapAndAddAssemble (trades : Trades) (options : SwapAndAddOptions) (position : Position)
    (addLiquidityOptions : Nat) (tokenInApprovalType tokenOutApprovalType : ApprovalType) :
    Except RouterError (List Calldata × Int) :=
  match encodeSwaps trades options.swapOptions true with
  | Except.error e => Except.error e
  | Except.ok r =>
    match outputPermitSeg r options with
    | Except.error e => Except.error e
    | Except.ok permitSeg =>
      Except.ok
        (r.calldatas ++ permitSeg ++ outputShortfallSeg r position
           ++ swapAndAddSuffix r options position addLiquidityOptions tokenInApprovalType tokenOutApprovalType,
         swapAndAddValue r position)

/-- `SwapRouter.swapAndAddCallParameters` (source lines 328-419): the
returned calldata is `calldatas[0]` of the assembled list, the value as
computed at source lines 405-412. -/
def swapAndAddCallParameters (trades : Trades) (options : SwapAndAddOptions) (position : Position)
    (addLiquidityOptions : Nat) (tokenInApprovalType tokenOutApprovalType : ApprovalType) :
    Except RouterError MethodParameters :=
  match swapAndAddAssemble trades options position addLiquidityOptions tokenInApprovalType tokenOutApprovalType with
  | Except.error e => Except.error e
  | Except.ok (calldatas, v) => Except.ok { calldata := calldatas.head?, value := v }

/-- Projects the payload out of a successful computation, with a fallback. -/
def getOk {ε α : Type} (e : Except ε α) (dflt : α) : α :=
  match e with
  | Except.ok a => a
  | Except.error _ => dflt

/-! ### Concrete example inputs shared by the witness and counterexample
theorems -/

/-- An ERC20 token. -/
def tokenA : Currency := ⟨false, 11⟩

/-- Another ERC20 token. -/
def tokenB : Currency := ⟨false, 22⟩

/-- The native asset. -/
def ether : Currency := ⟨true, 33⟩

/-- A 1% slippage tolerance. -/
def exSlippage : Percent := ⟨1, 100⟩

/-- Plain swap options: no recipient, no permit, no fee. -/
def exOptions : SwapOptions :=
  { slippageTolerance := exSlippage, recipient := none,
    deadlineOrPreviousBlockhash := some 1234, inputTokenPermit := none, fee := none }

/-- A V2 route from `tokenA` to `tokenB` with identity pair arithmetic. -/
def exRouteAB : Route :=
  { path := [11, 22], protocol := Protocol.V2, chainId := 1, input := tokenA, output := tokenB,
    amountOut := fun n => n, amountIn := fun n => n, priceImpact := ⟨1, 100⟩ }

/-- A V2 route from the native asset to `tokenB`. -/
def exRouteEthB : Route :=
  { path := [33, 22], protocol := Protocol.V2, chainId := 1, input := ether, output := tokenB,
    amountOut := fun n => n, amountIn := fun n => n, priceImpact := ⟨1, 100⟩ }

/-- A V2 trade instance, `tokenA` to `tokenB`, exact input. -/
def exTradeAB : IndivTrade :=
  { kind := TradeKind.v2, route := exRouteAB, inputAmount := ⟨tokenA, 100⟩,
    outputAmount := ⟨tokenB, 100⟩, tradeType := TradeType.EXACT_INPUT,
    priceImpact := ⟨1, 100⟩, swapsLength := 1 }

/-- A V2 trade instance with native input, exact input. -/
def exTradeEthB : IndivTrade :=
  { kind := TradeKind.v2, route := exRouteEthB, inputAmount := ⟨ether, 100⟩,
    outputAmount := ⟨tokenB, 100⟩, tradeType := TradeType.EXACT_INPUT,
    priceImpact := ⟨1, 100⟩, swapsLength := 1 }

/-- A V3 trade instance, `tokenA` to `tokenB`, exact input, one internal
swap, low price impact. -/
def exTradeV3 : IndivTrade :=
  { kind := TradeKind.v3, route := exRouteAB, inputAmount := ⟨tokenA, 100⟩,
    outputAmount := ⟨tokenB, 100⟩, tradeType := TradeType.EXACT_INPUT,
    priceImpact := ⟨1, 100⟩, swapsLength := 1 }

/-- An aggregate trade with a single native-input V2-protocol leg and an
aggregate price impact of 60%. -/
def exAgg : AggTrade :=
  { swaps := [⟨exRouteEthB, ⟨ether, 100⟩, ⟨tokenB, 100⟩⟩],
    tradeType := TradeType.EXACT_INPUT, priceImpact := ⟨60, 100⟩ }

/-! ### Shape of a successful `encodeSwaps` -/

/-- On a non-empty normalized list, a successful `encodeSwapsCore` means all
four invariants held and the result is the assembled record. -/
theorem encodeSwapsCore_ok_shape {s : IndivTrade} {rest : List IndivTrade} {o : SwapOptions}
    {b : Bool} {r : EncodeSwapsResult} (h : encodeSwapsCore (s :: rest) o b = Except.ok r) :
    tokenInCheck (s :: rest) s = true ∧ tokenOutCheck (s :: rest) s = true ∧
    tradeTypeCheck (s :: rest) s = true ∧ permitOkCheck s o = true ∧
    r = mkEncodeResult s rest o b := by
  simp only [encodeSwapsCore] at h
  split at h
  · split at h
    · split at h
      · split at h
        · exact ⟨by assumption, by assumption, by assumption, by assumption,
            (Except.ok.inj h).symm⟩
        · exact Except.noConfusion h
      · exact Except.noConfusion h
    · exact Except.noConfusion h
  · exact Except.noConfusion h

/-- A successful `encodeSwaps` run normalizes to a non-empty list, passes all
invariants, and returns the assembled record. -/
theorem encodeSwaps_ok_shape {t : Trades} {ts : List IndivTrade} {o : SwapOptions} {b : Bool}
    {r : EncodeSwapsResult} (h1 : normalizeTrades t = Except.ok ts)
    (h2 : encodeSwaps t o b = Except.ok r) :
    ∃ s rest, ts = s :: rest ∧
      tokenInCheck (s :: rest) s = true ∧ tokenOutCheck (s :: rest) s = true ∧
      tradeTypeCheck (s :: rest) s = true ∧ permitOkCheck s o = true ∧
      r = mkEncodeResult s rest o b := by
  simp only [encodeSwaps, h1] at h2
  cases ts with
  | nil => exact Except.noConfusion h2
  | cons s rest =>
    obtain ⟨a1, a2, a3, a4, a5⟩ := encodeSwapsCore_ok_shape h2
    exact ⟨s, rest, rfl, a1, a2, a3, a4, a5⟩

/-! ### C1: the returned calldata is the first assembled call -/

/-- C1: for every successful compile through either public entry point, the
returned `MethodParameters.calldata` is exactly the first entry of the
assembled calldata list (`calldatas[0]`); no concatenation or multicall
batching of the remaining entries is performed — the result holds a single
optional call, the list head. -/
theorem calldata_is_first_assembled_call :
    (∀ (t : Trades) (o : SwapOptions) (l : List Calldata) (v : Int),
        swapAssemble t o = Except.ok (l, v) →
        swapCallParameters t o = Except.ok { calldata := l.head?, value := v }) ∧
    (∀ (t : Trades) (o : SwapAndAddOptions) (pos : Position) (alo : Nat)
        (ia oa : ApprovalType) (l : List Calldata) (v : Int),
        swapAndAddAssemble t o pos alo ia oa = Except.ok (l, v) →
        swapAndAddCallParameters t o pos alo ia oa = Except.ok { calldata := l.head?, value := v }) := by
  constructor
  · intro t o l v h
    simp [swapCallParameters, h]
  · intro t o pos alo ia oa l v h
    simp [swapAndAddCallParameters, h]

/-- The assembled list and value of the example single-trade swap compile. -/
def exPairSwap : List Calldata × Int :=
  getOk (swapAssemble (Trades.single exTradeAB) exOptions) ([], 0)

/-- C1 witness: the first-entry projection evaluated on a concrete compile. -/
theorem calldata_is_first_assembled_call_witness :
    swapCallParameters (Trades.single exTradeAB) exOptions =
      Except.ok { calldata := exPairSwap.1.head?, value := exPairSwap.2 } :=
  calldata_is_first_assembled_call.1 _ _ exPairSwap.1 exPairSwap.2 rfl

/-! ### C3: the custody decision -/

/-- C3: for every accepted input, `routerMustCustody` is true iff the output
currency is native, or a fee option is present, or the compile is a
swap-and-add compile, or the aggregated-slippage-check heuristic fires; the
heuristic fires iff the trade type is `EXACT_INPUT` and the leg count exceeds
2, with `numberOfTrades` counting each V3/mixed instance's internal swaps and
each other leg as one. -/
theorem routerMustCustody_decision (t : Trades) (o : SwapOptions) (b : Bool)
    (ts : List IndivTrade) (r : EncodeSwapsResult)
    (h1 : normalizeTrades t = Except.ok ts) (h2 : encodeSwaps t o b = Except.ok r) :
    r.routerMustCustody = true ↔
      (r.outputIsNative = true ∨ o.fee.isSome = true ∨ b = true ∨
        (r.sampleTrade.tradeType = TradeType.EXACT_INPUT ∧ 2 < numberOfTrades ts)) := by
  obtain ⟨s, rest, hts, _, _, _, _, hr⟩ := encodeSwaps_ok_shape h1 h2
  subst hts
  subst hr
  simp only [mkEncodeResult, routerMustCustodyOf, performAggregatedSlippageCheckOf,
    Bool.or_eq_true, Bool.and_eq_true, beq_iff_eq, decide_eq_true_eq]
  tauto

/-- The result record of a concrete three-leg exact-input compile (the
aggregated slippage check fires: three V2 legs). -/
def exR3 : EncodeSwapsResult :=
  getOk (encodeSwaps (Trades.list [exTradeAB, exTradeAB, exTradeAB]) exOptions false) default

/-- C3 witness: the custody decision evaluated on a concrete three-leg
compile. -/
theorem routerMustCustody_decision_witness :
    exR3.routerMustCustody = true ↔
      (exR3.outputIsNative = true ∨ exOptions.fee.isSome = true ∨ false = true ∨
        (exR3.sampleTrade.tradeType = TradeType.EXACT_INPUT ∧
          2 < numberOfTrades [exTradeAB, exTradeAB, exTradeAB])) :=
  routerMustCustody_decision (Trades.list [exTradeAB, exTradeAB, exTradeAB]) exOptions false
    [exTradeAB, exTradeAB, exTradeAB] exR3 rfl rfl

/-! ### C7: the aggregate figures are exact sums over the legs -/

/-- Folding `CurrencyAmount.add` accumulates the raw amounts. -/
theorem foldl_add_quotient (f : IndivTrade → CurrencyAmount) (z : CurrencyAmount)
    (ts : List IndivTrade) :
    (ts.foldl (fun acc t => acc.add (f t)) z).quotient
      = z.quotient + (ts.map fun t => (f t).quotient).sum := by
  induction ts generalizing z with
  | nil => simp
  | cons t ts ih =>
    rw [List.foldl_cons, ih]
    simp only [CurrencyAmount.add, List.map_cons, List.sum_cons]
    ring

/-- C7: for every accepted input, `totalAmountIn` is the sum of each leg's
worst-case maximum input at the given slippage tolerance, `minimumAmountOut`
the sum of each leg's worst-case minimum output, and `quoteAmountOut` the sum
of each leg's nominal (unadjusted) output. -/
theorem aggregate_figures_are_sums (t : Trades) (o : SwapOptions) (b : Bool)
    (ts : List IndivTrade) (r : EncodeSwapsResult)
    (h1 : normalizeTrades t = Except.ok ts) (h2 : encodeSwaps t o b = Except.ok r) :
    r.totalAmountIn.quotient = (ts.map fun tr => (tr.maximumAmountIn o.slippageTolerance).quotient).sum ∧
    r.minimumAmountOut.quotient = (ts.map fun tr => (tr.minimumAmountOut o.slippageTolerance).quotient).sum ∧
    r.quoteAmountOut.quotient = (ts.map fun tr => tr.outputAmount.quotient).sum := by
  obtain ⟨s, rest, hts, _, _, _, _, hr⟩ := encodeSwaps_ok_shape h1 h2
  subst hts
  subst hr
  refine ⟨?_, ?_, ?_⟩ <;> simp only [mkEncodeResult]
  · rw [foldl_add_quotient (fun t => t.maximumAmountIn o.slippageTolerance)]
    simp [CurrencyAmount.fromRawAmount]
  · rw [foldl_add_quotient (fun t => t.minimumAmountOut o.slippageTolerance)]
    simp [CurrencyAmount.fromRawAmount]
  · rw [foldl_add_quotient (fun t => t.outputAmount)]
    simp [CurrencyAmount.fromRawAmount]

/-- The result record of a concrete two-leg compile. -/
def exR7 : EncodeSwapsResult :=
  getOk (encodeSwaps (Trades.list [exTradeAB, exTradeAB]) exOptions false) default

/-- C7 witness: the three aggregate sums evaluated on a concrete two-leg
compile. -/
theorem aggregate_figures_are_sums_witness :
    exR7.totalAmountIn.quotient
      = ([exTradeAB, exTradeAB].map fun tr => (tr.maximumAmountIn exOptions.slippageTolerance).quotient).sum ∧
    exR7.minimumAmountOut.quotient
      = ([exTradeAB, exTradeAB].map fun tr => (tr.minimumAmountOut exOptions.slippageTolerance).quotient).sum ∧
    exR7.quoteAmountOut.quotient
      = ([exTradeAB, exTradeAB].map fun tr => tr.outputAmount.quotient).sum :=
  aggregate_figures_are_sums (Trades.list [exTradeAB, exTradeAB]) exOptions false
    [exTradeAB, exTradeAB] exR7 rfl rfl

/-! ### C8: the swap-only transaction value -/

/-- C8: in the swap-only flow, the returned transaction value equals
`totalAmountIn` when the input currency is native and zero otherwise. -/
theorem swap_value_native (t : Trades) (o : SwapOptions) (r : EncodeSwapsResult)
    (mp : MethodParameters) (h1 : encodeSwaps t o false = Except.ok r)
    (h2 : swapCallParameters t o = Except.ok mp) :
    mp.value = if r.inputIsNative = true then r.totalAmountIn.quotient else 0 := by
  simp only [swapCallParameters, swapAssemble, h1] at h2
  obtain ⟨rfl⟩ := Except.ok.inj h2.symm
  rfl

/-- The result record of a concrete native-input compile. -/
def exR8 : EncodeSwapsResult :=
  getOk (encodeSwaps (Trades.single exTradeEthB) exOptions false) default

/-- The method parameters of a concrete native-input compile. -/
def exMP8 : MethodParameters :=
  getOk (swapCallParameters (Trades.single exTradeEthB) exOptions) default

/-- C8 witness: the value computation evaluated on a concrete native-input
compile. -/
theorem swap_value_native_witness :
    exMP8.value = if exR8.inputIsNative = true then exR8.totalAmountIn.quotient else 0 :=
  swap_value_native (Trades.single exTradeEthB) exOptions exR8 exMP8 rfl rfl

/-! ### C2: which legs produce an encoded swap call -/

/-- C2 counterexample: a lone V3 trade instance normalizes to one leg, no
permit is supplied, yet the assembled call list of a successful compile is
empty — the encoding loop only emits calls for V2 trade instances, so the
leg-to-call correspondence claimed for all three protocol tags fails. -/
theorem swap_calls_per_leg_cx :
    exOptions.inputTokenPermit = none ∧
    (normalizeTrades (Trades.single exTradeV3)).map List.length = Except.ok 1 ∧
    (encodeSwaps (Trades.single exTradeV3) exOptions false).map (fun r => r.calldatas.length)
      = Except.ok 0 :=
  ⟨rfl, rfl, rfl⟩

/-- C2 (amended): for every accepted input, the assembled call list is the
optional input-permit call followed by exactly one encoded swap call per
normalized leg that is a V2 trade instance, in the order the legs appear;
V3/mixed trade instances contribute no swap call. -/
theorem swap_calls_per_v2_leg (t : Trades) (o : SwapOptions) (b : Bool)
    (s : IndivTrade) (rest : List IndivTrade) (r : EncodeSwapsResult)
    (h1 : normalizeTrades t = Except.ok (s :: rest))
    (h2 : encodeSwaps t o b = Except.ok r) :
    r.calldatas = permitCalldata s o ++
      (s :: rest).filterMap (fun tr =>
        if tr.kind == TradeKind.v2 then
          some (encodeV2Swap tr o (routerMustCustodyOf s (s :: rest) o b)
            (performAggregatedSlippageCheckOf s (s :: rest)))
        else none) := by
  obtain ⟨s2, rest2, hts, _, _, _, _, hr⟩ := encodeSwaps_ok_shape h1 h2
  injection hts with e1 e2
  subst e1
  subst e2
  subst hr
  rfl

/-- The result record of a concrete one-leg V2 compile. -/
def exR2 : EncodeSwapsResult :=
  getOk (encodeSwaps (Trades.single exTradeAB) exOptions false) default

/-- C2 witness (for the amended claim): the calldata structure evaluated on a
concrete one-leg compile. -/
theorem swap_calls_per_v2_leg_witness :
    exR2.calldatas = permitCalldata exTradeAB exOptions ++
      [exTradeAB].filterMap (fun tr =>
        if tr.kind == TradeKind.v2 then
          some (encodeV2Swap tr exOptions (routerMustCustodyOf exTradeAB [exTradeAB] exOptions false)
            (performAggregatedSlippageCheckOf exTradeAB [exTradeAB]))
        else none) :=
  swap_calls_per_v2_leg (Trades.single exTradeAB) exOptions false exTradeAB [] exR2 rfl rfl

/-! ### C4: the V2 variant selection table -/

/-- C4: for a fixed leg, each of the six (trade type × input-native ×
output-native) combinations selects the documented router function with the
documented argument order, and the minimum-output argument of the exact-input
variants is replaced by zero exactly when the aggregated slippage check is in
effect (exact-output variants carry no minimum-output argument and are never
zeroed). -/
theorem encodeV2Swap_variant_selection (t : IndivTrade) (o : SwapOptions) (rmc pasc : Bool) :
    (t.tradeType = TradeType.EXACT_INPUT → t.inputAmount.currency.isNative = true →
      encodeV2Swap t o rmc pasc =
        Calldata.swapExactETHForTokens
          (if pasc then 0 else (t.minimumAmountOut o.slippageTolerance).quotient)
          t.route.path (swapRecipient o rmc) o.deadlineOrPreviousBlockhash) ∧
    (t.tradeType = TradeType.EXACT_INPUT → t.inputAmount.currency.isNative = false →
      t.outputAmount.currency.isNative = true →
      encodeV2Swap t o rmc pasc =
        Calldata.swapExactTokensForETH (t.maximumAmountIn o.slippageTolerance).quotient
          (if pasc then 0 else (t.minimumAmountOut o.slippageTolerance).quotient)
          t.route.path (swapRecipient o rmc) o.deadlineOrPreviousBlockhash) ∧
    (t.tradeType = TradeType.EXACT_INPUT → t.inputAmount.currency.isNative = false →
      t.outputAmount.currency.isNative = false →
      encodeV2Swap t o rmc pasc =
        Calldata.swapExactTokensForTokens (t.maximumAmountIn o.slippageTolerance).quotient
          (if pasc then 0 else (t.minimumAmountOut o.slippageTolerance).quotient)
          t.route.path (swapRecipient o rmc) o.deadlineOrPreviousBlockhash) ∧
    (t.tradeType = TradeType.EXACT_OUTPUT → t.inputAmount.currency.isNative = true →
      encodeV2Swap t o rmc pasc =
        Calldata.swapETHForExactTokens (t.minimumAmountOut o.slippageTolerance).quotient
          (t.maximumAmountIn o.slippageTolerance).quotient
          t.route.path (swapRecipient o rmc) o.deadlineOrPreviousBlockhash) ∧
    (t.tradeType = TradeType.EXACT_OUTPUT → t.inputAmount.currency.isNative = false →
      t.outputAmount.currency.isNative = true →
      encodeV2Swap t o rmc pasc =
        Calldata.swapTokensForExactETH (t.minimumAmountOut o.slippageTolerance).quotient
          (t.maximumAmountIn o.slippageTolerance).quotient
          t.route.path (swapRecipient o rmc) o.deadlineOrPreviousBlockhash) ∧
    (t.tradeType = TradeType.EXACT_OUTPUT → t.inputAmount.currency.isNative = false →
      t.outputAmount.currency.isNative = false →
      encodeV2Swap t o rmc pasc =
        Calldata.swapTokensForExactTokens (t.minimumAmountOut o.slippageTolerance).quotient
          (t.maximumAmountIn o.slippageTolerance).quotient
          t.route.path (swapRecipient o rmc) o.deadlineOrPreviousBlockhash) := by
  refine ⟨?_, ?_, ?_, ?_, ?_, ?_⟩
  · intro h1 h2; simp [encodeV2Swap, h1, h2]
  · intro h1 h2 h3; simp [encodeV2Swap, h1, h2, h3]
  · intro h1 h2 h3; simp [encodeV2Swap, h1, h2, h3]
  · intro h1 h2; simp [encodeV2Swap, h1, h2]
  · intro h1 h2 h3; simp [encodeV2Swap, h1, h2, h3]
  · intro h1 h2 h3; simp [encodeV2Swap, h1, h2, h3]

/-- C4 witness: the exact-input token-to-token variant evaluated on a
concrete leg. -/
theorem encodeV2Swap_variant_selection_witness :
    encodeV2Swap exTradeAB exOptions false false =
      Calldata.swapExactTokensForTokens (exTradeAB.maximumAmountIn exOptions.slippageTolerance).quotient
        (if false then 0 else (exTradeAB.minimumAmountOut exOptions.slippageTolerance).quotient)
        exTradeAB.route.path (swapRecipient exOptions false) exOptions.deadlineOrPreviousBlockhash :=
  (encodeV2Swap_variant_selection exTradeAB exOptions false false).2.2.1 rfl rfl rfl

/-! ### C6: fail-fast normalization validation -/

/-- C6: every route protocol tag is one of the three supported tags (so the
`UNSUPPORTED_PROTOCOL` branch, which would otherwise fire, is unreachable);
after flattening, a shared-input-currency violation fails with
`TOKEN_IN_DIFF`, then a shared-output-currency violation with
`TOKEN_OUT_DIFF`, then a shared-trade-type violation with `TRADE_TYPE_DIFF`,
in that fail-fast order; no partial result accompanies an error (the return
type is a sum), and every accepted input satisfies all the conditions. -/
theorem normalization_failfast (t : Trades) (o : SwapOptions) (b : Bool)
    (s : IndivTrade) (rest : List IndivTrade)
    (h : normalizeTrades t = Except.ok (s :: rest)) :
    (∀ p : Protocol, supportedProtocol p = true) ∧
    (∀ a : AggTrade, (a.swaps.all fun sw => supportedProtocol sw.route.protocol) = false →
      normalizeTrades (Trades.agg a) = Except.error RouterError.UNSUPPORTED_PROTOCOL) ∧
    (tokenInCheck (s :: rest) s = false →
      encodeSwaps t o b = Except.error RouterError.TOKEN_IN_DIFF) ∧
    (tokenInCheck (s :: rest) s = true → tokenOutCheck (s :: rest) s = false →
      encodeSwaps t o b = Except.error RouterError.TOKEN_OUT_DIFF) ∧
    (tokenInCheck (s :: rest) s = true → tokenOutCheck (s :: rest) s = true →
      tradeTypeCheck (s :: rest) s = false →
      encodeSwaps t o b = Except.error RouterError.TRADE_TYPE_DIFF) ∧
    (∀ r, encodeSwaps t o b = Except.ok r →
      tokenInCheck (s :: rest) s = true ∧ tokenOutCheck (s :: rest) s = true ∧
      tradeTypeCheck (s :: rest) s = true) := by
  refine ⟨?_, ?_, ?_, ?_, ?_, ?_⟩
  · intro p; cases p <;> rfl
  · intro a ha; simp [normalizeTrades, ha]
  · intro hin; simp [encodeSwaps, h, encodeSwapsCore, hin]
  · intro hin hout; simp [encodeSwaps, h, encodeSwapsCore, hin, hout]
  · intro hin hout hty; simp [encodeSwaps, h, encodeSwapsCore, hin, hout, hty]
  · intro r hr
    simp only [encodeSwaps, h] at hr
    obtain ⟨a1, a2, a3, _, _⟩ := encodeSwapsCore_ok_shape hr
    exact ⟨a1, a2, a3⟩

/-- C6 witness: a two-leg list whose legs disagree on the input currency
fails with exactly `TOKEN_IN_DIFF`. -/
theorem normalization_failfast_witness :
    encodeSwaps (Trades.list [exTradeAB, exTradeEthB]) exOptions false
      = Except.error RouterError.TOKEN_IN_DIFF :=
  (normalization_failfast (Trades.list [exTradeAB, exTradeEthB]) exOptions false
    exTradeAB [exTradeEthB] rfl).2.2.1 rfl

/-! ### C9: normalization idempotence across input shapes -/

/-- C9: normalizing an aggregate trade and normalizing its pre-flattened list
of per-leg single-protocol trades yield the identical leg sequence — hence
identical per-leg amounts and identical sample-trade attributes — and the two
shapes encode identically as well. -/
theorem normalization_idempotent (a : AggTrade) (o : SwapOptions) (b : Bool) :
    normalizeTrades (Trades.agg a) = Except.ok (unbundle a) ∧
    normalizeTrades (Trades.agg a) = normalizeTrades (Trades.list (unbundle a)) ∧
    encodeSwaps (Trades.agg a) o b = encodeSwaps (Trades.list (unbundle a)) o b := by
  have hall : (a.swaps.all fun s => supportedProtocol s.route.protocol) = true := by
    rw [List.all_eq_true]
    intro x _
    cases hx : x.route.protocol <;> rfl
  refine ⟨?_, ?_, ?_⟩ <;> simp [normalizeTrades, encodeSwaps, hall]

/-! ### C5: the native-input refund policy -/

/-- C5 counterexample: an aggregate input whose leg routes are all
V2-protocol and whose normalized legs are all V2 trade instances (so no leg
satisfies the claimed per-leg risk predicate — conjuncts 2-4), exact input
and native input, yet the compile appends a trailing refund call because the
risk assessor inspects the aggregate object itself, whose own price impact
(60%) exceeds the 50% threshold. -/
theorem refund_policy_cx :
    exAgg.tradeType = TradeType.EXACT_INPUT ∧
    (exAgg.swaps.all fun s => s.route.protocol == Protocol.V2) = true ∧
    ((unbundle exAgg).all fun t => t.kind == TradeKind.v2) = true ∧
    ((unbundle exAgg).all fun t => !v3TradeWithHighPriceImpactIndiv t) = true ∧
    (swapAssemble (Trades.agg exAgg) exOptions).map (fun p => p.1.getLast?)
      = Except.ok (some Calldata.refundETH) :=
  ⟨rfl, rfl, rfl, rfl, rfl⟩

/-- C5 (amended): in the swap-only flow, the refund call is appended, last,
iff the input currency is native and (the trade type is `EXACT_OUTPUT` or
`riskOfPartialFill` flags the original, pre-normalization input). For a
single trade or a list of trades, risk is flagged iff some element is not a
V2 trade instance and its price impact exceeds the fixed 50% threshold — in
particular a V2 trade instance never flags risk; for an aggregate input the
aggregate object's own price impact is compared against the threshold and its
legs are not inspected. -/
theorem refund_policy (t : Trades) (o : SwapOptions) (r : EncodeSwapsResult)
    (h : encodeSwaps t o false = Except.ok r) :
    swapAssemble t o = Except.ok
      (r.calldatas ++ custodySeg r o ++
        (if r.inputIsNative && (r.sampleTrade.tradeType == TradeType.EXACT_OUTPUT
            || riskOfPartialFill t)
         then [Calldata.refundETH] else []),
       if r.inputIsNative then r.totalAmountIn.quotient else 0) ∧
    (∀ x : IndivTrade, x.kind = TradeKind.v2 → v3TradeWithHighPriceImpactIndiv x = false) ∧
    (∀ l : List IndivTrade,
      riskOfPartialFill (Trades.list l) = l.any v3TradeWithHighPriceImpactIndiv) ∧
    (∀ a : AggTrade, riskOfPartialFill (Trades.agg a)
      = a.priceImpact.greaterThan REFUND_ETH_PRICE_IMPACT_THRESHOLD) := by
  refine ⟨?_, ?_, ?_, ?_⟩
  · simp [swapAssemble, h, refundSeg]
  · intro x hx
    simp [v3TradeWithHighPriceImpactIndiv, hx]
  · intro l; rfl
  · intro a; rfl

/-- The result record of the concrete aggregate compile of the C5
counterexample. -/
def exR5 : EncodeSwapsResult :=
  getOk (encodeSwaps (Trades.agg exAgg) exOptions false) default

/-- C5 witness (for the amended claim): the refund decision evaluated on the
concrete aggregate compile. -/
theorem refund_policy_witness :
    swapAssemble (Trades.agg exAgg) exOptions = Except.ok
      (exR5.calldatas ++ custodySeg exR5 exOptions ++
        (if exR5.inputIsNative && (exR5.sampleTrade.tradeType == TradeType.EXACT_OUTPUT
            || riskOfPartialFill (Trades.agg exAgg))
         then [Calldata.refundETH] else []),
       if exR5.inputIsNative then exR5.totalAmountIn.quotient else 0) ∧
    (∀ x : IndivTrade, x.kind = TradeKind.v2 → v3TradeWithHighPriceImpactIndiv x = false) ∧
    (∀ l : List IndivTrade,
      riskOfPartialFill (Trades.list l) = l.any v3TradeWithHighPriceImpactIndiv) ∧
    (∀ a : AggTrade, riskOfPartialFill (Trades.agg a)
      = a.priceImpact.greaterThan REFUND_ETH_PRICE_IMPACT_THRESHOLD) :=
  refund_policy (Trades.agg exAgg) exOptions exR5 rfl

/-! ### C10: the output-side shortfall of the swap-and-add flow -/

/-- C10: in the swap-and-add flow, a pull/wrap call for the output-side
shortfall is emitted iff `amountOutRemaining` (desired position output
amount minus the swap's nominal output in wrapped terms) is strictly
positive: wrap native value when the output is native, pull the ERC20
otherwise. When the difference is zero or negative nothing is emitted for
the output side and the compile still succeeds — a negative remaining amount
is policy, not an error. -/
theorem swapAndAdd_output_shortfall (t : Trades) (o : SwapAndAddOptions) (position : Position)
    (alo : Nat) (ia oa : ApprovalType) (r : EncodeSwapsResult) (ps : List Calldata)
    (h1 : encodeSwaps t o.swapOptions true = Except.ok r)
    (h2 : outputPermitSeg r o = Except.ok ps) :
    swapAndAddAssemble t o position alo ia oa = Except.ok
      (r.calldatas ++ ps ++
        (if 0 < (amountOutRemainingOf r position).quotient then
           [if r.outputIsNative then Calldata.wrapETH (amountOutRemainingOf r position).quotient
            else Calldata.pull (tokenOutOf r position) (amountOutRemainingOf r position).quotient]
         else [])
        ++ swapAndAddSuffix r o position alo ia oa,
       swapAndAddValue r position) ∧
    (¬ 0 < (amountOutRemainingOf r position).quotient → outputShortfallSeg r position = []) := by
  constructor
  · simp [swapAndAddAssemble, h1, h2, outputShortfallSeg]
  · intro hneg
    simp [outputShortfallSeg, hneg]

/-- A concrete deposit target: `tokenA`/`tokenB` pool, output-side mint
amount above the swap's nominal output of 100. -/
def exPosition : Position :=
  { pool := { token0 := tokenA, token1 := tokenB }, tickLower := 0, tickUpper := 10,
    mintAmount0 := 30, mintAmount1 := 150, amount0 := 30, amount1 := 150 }

/-- Swap-and-add options without an output permit. -/
def exSAOptions : SwapAndAddOptions :=
  { swapOptions := exOptions, outputTokenPermit := none }

/-- The result record of a concrete swap-and-add compile. -/
def exR10 : EncodeSwapsResult :=
  getOk (encodeSwaps (Trades.single exTradeAB) exSAOptions.swapOptions true) default

/-- C10 witness: the output-shortfall decision evaluated on a concrete
swap-and-add compile (remaining amount 150 − 100 = 50 > 0). -/
theorem swapAndAdd_output_shortfall_witness :
    swapAndAddAssemble (Trades.single exTradeAB) exSAOptions exPosition 7
      ApprovalType.MAX ApprovalType.MAX = Except.ok
      (exR10.calldatas ++ [] ++
        (if 0 < (amountOutRemainingOf exR10 exPosition).quotient then
           [if exR10.outputIsNative then
              Calldata.wrapETH (amountOutRemainingOf exR10 exPosition).quotient
            else Calldata.pull (tokenOutOf exR10 exPosition)
              (amountOutRemainingOf exR10 exPosition).quotient]
         else [])
        ++ swapAndAddSuffix exR10 exSAOptions exPosition 7 ApprovalType.MAX ApprovalType.MAX,
       swapAndAddValue exR10 exPosition) ∧
    (¬ 0 < (amountOutRemainingOf exR10 exPosition).quotient →
      outputShortfallSeg exR10 exPosition = []) :=
  swapAndAdd_output_shortfall (Trades.single exTradeAB) exSAOptions exPosition 7
    ApprovalType.MAX ApprovalType.MAX exR10 [] rfl rfl
